import Mathlib

/-!
Shallow embedding of the context-budgeted RAG answer pipeline of
`rag_system.py` and of the image preprocessing in the `/api/` handler of
`app.py`.

External services are modelled as function parameters: `tok` stands for
`num_tokens_from_string` (the tiktoken counter, keyed by model name),
`chat` for the chat-completion call, `embed` for `get_embedding`, and
`retrieve` for `retrieve_documents`.  Fallible calls return `Except ε`,
mirroring Python exceptions caught by the corresponding `try` blocks.
-/

/-- A retrieved document as consumed by `generate_llm_response`
(`rag_system.py`, lines 120-131).  The Python value is a dict read with
`doc.get(key, default)`, so each field is optional here and the code
below applies the source's defaults.  The `id` and `score` keys produced
by `retrieve_documents` are never read by the packer and are omitted. -/
structure Doc where
  text : Option String
  title : Option String
  url : Option String
deriving DecidableEq

/-- A title/url citation dict as appended to `sources`
(`rag_system.py`, line 131). -/
structure Citation where
  title : String
  url : String
deriving DecidableEq

/-- The answer/sources dict returned by `generate_llm_response` and
`generate_rag_answer`.  In Python this is a plain dict; the structure
type records that both keys are present on every return path. -/
structure RagResult where
  answer : String
  sources : List Citation
deriving DecidableEq

/-- One entry of the user message's `content` list (`rag_system.py`,
lines 141-152): a text part or an `image_url` part with its detail level. -/
inductive ContentPart where
  | text (s : String)
  | imageUrl (url : String) (detail : String)
deriving DecidableEq

/-- A message `content`: the system message holds a plain string, the
user message holds a list of parts. -/
inductive MessageContent where
  | str (s : String)
  | parts (ps : List ContentPart)
deriving DecidableEq

/-- A chat message (`rag_system.py`, lines 138-154). -/
structure Message where
  role : String
  content : MessageContent
deriving DecidableEq

/-- Constant from `rag_system.py`, line 49. -/
def LLM_MODEL_VISION : String := "gpt-4o"

/-- Constant from `rag_system.py`, line 50. -/
def LLM_MODEL_TEXT_ONLY : String := "gpt-3.5-turbo"

/-- Constant from `rag_system.py`, line 52. -/
def MAX_TOKENS_FOR_LLM_VISION : Nat := 4096

/-- Constant from `rag_system.py`, line 53. -/
def RESERVED_QUERY_TOKENS : Nat := 500

/-- The system prompt (`rag_system.py`, lines 108-113); `\x27` is the
apostrophe in the original text. -/
def system_prompt_template : String :=
  "You are a helpful assistant that answers questions based on the provided text context and any given images.\nIf the answer is not available in the provided text context, politely state that you don\x27t have enough information.\nIf images are provided, analyze them to help answer the question.\nAvoid making up answers.\n\nContext:"

/-- Python truthiness of the `image_data_list: list[str] = None` parameter:
`None` and `[]` are falsy, a non-empty list is truthy. -/
def truthy (image_data_list : Option (List String)) : Bool :=
  match image_data_list with
  | none => false
  | some l => !l.isEmpty

/-- Model choice of `rag_system.py`, line 105. -/
def llm_model_to_use (image_data_list : Option (List String)) : String :=
  if truthy image_data_list then LLM_MODEL_VISION else LLM_MODEL_TEXT_ONLY

/-- Budget choice of `rag_system.py`, line 106: both branches of the
conditional name the same constant. -/
def max_tokens_for_llm_effective (image_data_list : Option (List String)) : Nat :=
  if truthy image_data_list then MAX_TOKENS_FOR_LLM_VISION else MAX_TOKENS_FOR_LLM_VISION

/-- The formatted block for one document (`rag_system.py`, lines 121-125),
with the dict-`get` defaults applied. -/
def doc_for_llm (doc : Doc) : String :=
  "\n\n--- Document from " ++ doc.title.getD "No Title" ++ " (Source: " ++
    doc.url.getD "#" ++ ") ---\n" ++ doc.text.getD ""

/-- The citation appended for an admitted document (`rag_system.py`,
line 131). -/
def citation_of (doc : Doc) : Citation :=
  { title := doc.title.getD "No Title", url := doc.url.getD "#" }

/-- Python's `"\n".join(parts)` (`rag_system.py`, line 136), written as
structural recursion so that concrete instances reduce in the kernel. -/
def join_with (sep : String) : List String → String
  | [] => ""
  | [s] => s
  | s :: rest => s ++ sep ++ join_with sep rest

/-- Drops leading whitespace characters from a character list. -/
def dropLeadingWs : List Char → List Char
  | [] => []
  | c :: cs => if c.isWhitespace then dropLeadingWs cs else c :: cs

/-- Python's `str.strip()`, used on the model's answer (`rag_system.py`,
line 163): whitespace is removed from both ends. -/
def py_strip (s : String) : String :=
  String.mk ((dropLeadingWs ((dropLeadingWs s.data).reverse)).reverse)

/-- The document-packing loop of `generate_llm_response` (`rag_system.py`,
lines 115-134): `tok` is `num_tokens_from_string` for the chosen model,
`budget` is `max_tokens_for_llm_effective`, the `Nat` accumulator is
`current_tokens`.  Returns (`context_str_parts`, `sources`); the `else`
branch is the `break`. -/
def pack_docs (tok : String → Nat) (budget : Nat) :
    Nat → List Doc → List String × List Citation
  | _, [] => ([], [])
  | current_tokens, doc :: rest =>
    let block := doc_for_llm doc
    let doc_tokens := tok block
    if current_tokens + doc_tokens < budget then
      let r := pack_docs tok budget (current_tokens + doc_tokens) rest
      (block :: r.1, citation_of doc :: r.2)
    else ([], [])

/-- The Context Packer: `pack_docs` started from
`baseTokens = tok (system_prompt_template ++ query) + reservedTokens`
(`rag_system.py`, line 118).  The implementation runs it with
`tokenBudget = MAX_TOKENS_FOR_LLM_VISION` and
`reservedTokens = RESERVED_QUERY_TOKENS`; budget and reserve are
parameters here because the spec quantifies over them. -/
def pack (tok : String → Nat) (query : String) (docs : List Doc)
    (tokenBudget reservedTokens : Nat) : List String × List Citation :=
  pack_docs tok tokenBudget (tok (system_prompt_template ++ query) + reservedTokens) docs

/-- The packing step exactly as `generate_llm_response` invokes it
(`rag_system.py`, lines 105-134). -/
def packed_context (tok : String → String → Nat) (query : String)
    (docs : List Doc) (image_data_list : Option (List String)) :
    List String × List Citation :=
  pack (tok (llm_model_to_use image_data_list)) query docs
    (max_tokens_for_llm_effective image_data_list) RESERVED_QUERY_TOKENS

/-- The two-message prompt (`rag_system.py`, lines 138-154): a system
message holding the prompt template plus the packed context, and a user
message holding the query text followed by one `image_url` part per image
when the image list is truthy. -/
def build_messages (query full_context_str : String)
    (image_data_list : Option (List String)) : List Message :=
  let user_content := ContentPart.text query ::
    (if truthy image_data_list then
      (image_data_list.getD []).map
        (fun base64_image =>
          ContentPart.imageUrl ("data:image/jpeg;base64," ++ base64_image) "auto")
    else [])
  [{ role := "system",
     content := MessageContent.str (system_prompt_template ++ full_context_str) },
   { role := "user", content := MessageContent.parts user_content }]

/-- Fallback answer of `generate_llm_response` (`rag_system.py`, line 169). -/
def generation_error_answer : String :=
  "I\x27m sorry, I encountered an error while trying to generate a response."

/-- Fallback answer of `generate_rag_answer` (`rag_system.py`, line 191). -/
def rag_error_answer : String :=
  "I\x27m sorry, an internal error occurred in the RAG system."

/-- Embedding of `generate_llm_response` (`rag_system.py`, lines 98-169).  `chat`
models the `chat.completions.create` call together with the
`.choices[0].message.content` access; `Except.error` stands for any
exception the surrounding `try` catches.  `.strip()` is `py_strip`. -/
def generate_llm_response {ε : Type} (tok : String → String → Nat)
    (chat : String → List Message → Except ε String) (query : String)
    (retrieved_documents : List Doc)
    (image_data_list : Option (List String)) : RagResult :=
  let ctx := packed_context tok query retrieved_documents image_data_list
  let full_context_str := join_with "\n" ctx.1
  let messages := build_messages query full_context_str image_data_list
  match chat (llm_model_to_use image_data_list) messages with
  | Except.ok llm_answer => { answer := py_strip llm_answer, sources := ctx.2 }
  | Except.error _ => { answer := generation_error_answer, sources := [] }

/-- Embedding of `generate_rag_answer` (`rag_system.py`, lines 172-191).  `embed`
models `get_embedding` (the external embedding call, producing a vector
of abstract type `V`), `retrieve` models `retrieve_documents`; the
`match` nesting mirrors the `try`/`except` that converts any stage
failure into the fixed fallback result. -/
def generate_rag_answer {ε V : Type} (tok : String → String → Nat)
    (chat : String → List Message → Except ε String)
    (embed : String → Except ε V)
    (retrieve : V → Nat → Except ε (List Doc))
    (user_query : String) (image_data_list : Option (List String)) : RagResult :=
  match embed user_query with
  | Except.error _ => { answer := rag_error_answer, sources := [] }
  | Except.ok query_embedding =>
    match retrieve query_embedding 7 with
    | Except.error _ => { answer := rag_error_answer, sources := [] }
    | Except.ok retrieved_documents =>
      generate_llm_response tok chat user_query retrieved_documents image_data_list

/-- The characters after the first `,` of a character list, if any. -/
def after_comma : List Char → Option (List Char)
  | [] => none
  | c :: cs => if c == ',' then some cs else after_comma cs

/-- Python's `s.split(",", 1)[1]`: `some` of everything after the first
comma, `none` when there is no comma (where Python raises `IndexError`,
`app.py`, line 51). -/
def after_first_comma (s : String) : Option String :=
  (after_comma s.data).map String.mk

/-- Python's `str.startswith`. -/
def starts_with (s p : String) : Bool :=
  p.data.isPrefixOf s.data

/-- Per-image processing of the `/api/` handler (`app.py`, lines 50-53):
a string starting with `"data:image/"` is replaced by the part after its
first comma (`Except.error` models the `IndexError` when no comma
exists), any other string passes through unchanged. -/
def process_image (img_b64 : String) : Except Unit String :=
  if starts_with img_b64 "data:image/" then
    match after_first_comma img_b64 with
    | some s => Except.ok s
    | none => Except.error ()
  else Except.ok img_b64

/-- The `for img_b64 in request.image_data` loop (`app.py`, lines 49-53):
results are appended in order and the first exception aborts the loop. -/
def process_images : List String → Except Unit (List String)
  | [] => Except.ok []
  | img :: rest =>
    match process_image img with
    | Except.error e => Except.error e
    | Except.ok s =>
      match process_images rest with
      | Except.error e => Except.error e
      | Except.ok l => Except.ok (s :: l)

/-- The image-list preparation of `ask_question` (`app.py`, lines 47-53):
the loop runs only when `request.image_data` is truthy, otherwise the
forwarded list stays empty. -/
def ask_question_images (image_data : Option (List String)) :
    Except Unit (List String) :=
  if truthy image_data then process_images (image_data.getD [])
  else Except.ok []

/-- A character-count tokenizer, used to instantiate the abstract
`num_tokens_from_string` parameter on concrete inputs. -/
def charCount (s : String) : Nat := s.data.length

/-- First concrete document for the budget counterexample. -/
def cex_doc1 : Doc := { text := some "alpha", title := some "T1", url := some "u1" }

/-- Second concrete document for the budget counterexample. -/
def cex_doc2 : Doc := { text := some "beta", title := some "T2", url := some "u2" }

/-- A budget that admits both counterexample documents with exactly the
width of the uncounted join separator to spare. -/
def cex_budget : Nat :=
  charCount (system_prompt_template ++ "") + charCount (doc_for_llm cex_doc1) +
    charCount (doc_for_llm cex_doc2) + 1

set_option maxRecDepth 8000

/-- Structure of one `pack_docs` run: the admitted blocks and citations
are the images of a prefix of the input list, the running token count
stays strictly below the budget as long as at least one document was
admitted, and the first document left unadmitted (if any) is exactly one
that failed the budget test. -/
theorem pack_docs_take (tok : String → Nat) (budget : Nat) :
    ∀ (docs : List Doc) (cur : Nat), ∃ k, k ≤ docs.length ∧
      (pack_docs tok budget cur docs).1 = (docs.take k).map doc_for_llm ∧
      (pack_docs tok budget cur docs).2 = (docs.take k).map citation_of ∧
      (k ≠ 0 →
        cur + (((docs.take k).map (fun d => tok (doc_for_llm d))).sum) < budget) ∧
      (∀ d rest, docs.drop k = d :: rest →
        ¬ (cur + (((docs.take k).map (fun d => tok (doc_for_llm d))).sum) +
            tok (doc_for_llm d) < budget)) := by
  intro docs
  induction docs with
  | nil =>
    intro cur
    refine ⟨0, Nat.le_refl 0, rfl, rfl, fun h => absurd rfl h, ?_⟩
    intro d rest h
    simp at h
  | cons doc rest ih =>
    intro cur
    by_cases h : cur + tok (doc_for_llm doc) < budget
    · obtain ⟨k, hk, h1, h2, h3, h4⟩ := ih (cur + tok (doc_for_llm doc))
      refine ⟨k + 1, Nat.succ_le_succ hk, ?_, ?_, ?_, ?_⟩
      · simp only [pack_docs, if_pos h, List.take_succ_cons, List.map_cons]
        rw [h1]
      · simp only [pack_docs, if_pos h, List.take_succ_cons, List.map_cons]
        rw [h2]
      · intro _
        simp only [List.take_succ_cons, List.map_cons, List.sum_cons]
        cases k with
        | zero => simpa using h
        | succ k' =>
          have := h3 (Nat.succ_ne_zero k')
          omega
      · intro d rest' hdrop
        simp only [List.drop_succ_cons] at hdrop
        have := h4 d rest' hdrop
        simp only [List.take_succ_cons, List.map_cons, List.sum_cons]
        omega
    · refine ⟨0, Nat.zero_le _, ?_, ?_, fun h0 => absurd rfl h0, ?_⟩
      · simp only [pack_docs, if_neg h, List.take_zero, List.map_nil]
      · simp only [pack_docs, if_neg h, List.take_zero, List.map_nil]
      · intro d rest' hdrop
        simp only [List.drop_zero] at hdrop
        injection hdrop with hd ht
        subst hd
        simpa using h

/-- Claim C1, counterexample to the claim as stated.  With the
character-count tokenizer both documents are admitted, yet the token
count of the joined context text plus baseTokens is not strictly below
the budget: the join inserts a separator between blocks whose width the
loop never counted, closing the one-token gap the admission checks left.
Second conjunct: with an empty passage list, budget 1 and the
implementation's reserve of 500, baseTokens alone already exceeds the
budget, so the claimed inequality fails although the packer returns the
well-formed empty context. -/
theorem pack_budget_cex :
    (pack charCount "" [cex_doc1, cex_doc2] cex_budget 0).1.length = 2 ∧
    ¬ (charCount (join_with "\n" (pack charCount "" [cex_doc1, cex_doc2] cex_budget 0).1) +
        (charCount (system_prompt_template ++ "") + 0) < cex_budget) ∧
    ¬ (charCount (join_with "\n" (pack charCount "" ([] : List Doc) 1 500).1) +
        (charCount (system_prompt_template ++ "") + 500) < 1) := by decide

/-- Claim C1, amended.  For every tokenizer, query, passage list, token
budget and reserved-token count: if the packer admits at least one
passage, then baseTokens plus the sum of the admitted blocks' individual
token counts is strictly below the budget — this running sum is the
quantity the loop actually bounds.  The inequality on the token count of
the joined context text, and the case where nothing is admitted, fail as
the counterexample shows. -/
theorem pack_budget_respected (tok : String → Nat) (query : String) (docs : List Doc)
    (tokenBudget reservedTokens : Nat)
    (h : (pack tok query docs tokenBudget reservedTokens).1 ≠ []) :
    tok (system_prompt_template ++ query) + reservedTokens +
      (((pack tok query docs tokenBudget reservedTokens).1).map tok).sum < tokenBudget := by
  obtain ⟨k, hk, h1, h2, h3, h4⟩ :=
    pack_docs_take tok tokenBudget docs (tok (system_prompt_template ++ query) + reservedTokens)
  have hpack : (pack tok query docs tokenBudget reservedTokens).1 =
      (docs.take k).map doc_for_llm := h1
  have hk0 : k ≠ 0 := by
    intro hk0
    subst hk0
    rw [hpack] at h
    simp at h
  have hlt := h3 hk0
  rw [hpack, List.map_map]
  simpa [Function.comp] using hlt

/-- Claim C1, witness: a run that admits one passage under a generous
budget, for which the amended bound holds. -/
theorem pack_budget_respected_witness :
    (pack (fun _ => 1) "" [Doc.mk (some "t") (some "T") (some "u")] 10 0).1 ≠ [] ∧
    1 + 0 + (((pack (fun _ => 1) "" [Doc.mk (some "t") (some "T") (some "u")] 10 0).1).map
      (fun _ => 1)).sum < 10 :=
  ⟨by decide, pack_budget_respected (fun _ => 1) "" _ 10 0 (by decide)⟩

/-- Claim C2: the packing loop follows a strict greedy-prefix policy.
For every input the admitted blocks are the formatted first `k` passages
of the ranked list, for some `k` — so once a passage is rejected, no
later (lower-ranked) passage is admitted — and whenever a passage is
left unadmitted, the first such passage indeed failed the budget check
against the running total of everything admitted before it: the loop
stopped there rather than skipping it. -/
theorem pack_greedy (tok : String → Nat) (query : String) (docs : List Doc)
    (tokenBudget reservedTokens : Nat) :
    ∃ k, k ≤ docs.length ∧
      (pack tok query docs tokenBudget reservedTokens).1 = (docs.take k).map doc_for_llm ∧
      ∀ d rest, docs.drop k = d :: rest →
        ¬ (tok (system_prompt_template ++ query) + reservedTokens +
            (((docs.take k).map (fun x => tok (doc_for_llm x))).sum) +
            tok (doc_for_llm d) < tokenBudget) := by
  obtain ⟨k, hk, h1, _, _, h4⟩ :=
    pack_docs_take tok tokenBudget docs (tok (system_prompt_template ++ query) + reservedTokens)
  exact ⟨k, hk, h1, h4⟩

/-- Claim C3: the citation list returned by the packer has exactly the
length of the admitted-block list, and both lists arise from the same
prefix of the input passages — so the i-th citation carries the title
and url of the i-th admitted passage, order preserved. -/
theorem pack_citation_correspondence (tok : String → Nat) (query : String) (docs : List Doc)
    (tokenBudget reservedTokens : Nat) :
    ((pack tok query docs tokenBudget reservedTokens).2).length =
      ((pack tok query docs tokenBudget reservedTokens).1).length ∧
    ∃ k, (pack tok query docs tokenBudget reservedTokens).1 = (docs.take k).map doc_for_llm ∧
      (pack tok query docs tokenBudget reservedTokens).2 = (docs.take k).map citation_of := by
  obtain ⟨k, _, h1, h2, _, _⟩ :=
    pack_docs_take tok tokenBudget docs (tok (system_prompt_template ++ query) + reservedTokens)
  refine ⟨?_, k, h1, h2⟩
  have h1' : (pack tok query docs tokenBudget reservedTokens).1 =
      (docs.take k).map doc_for_llm := h1
  have h2' : (pack tok query docs tokenBudget reservedTokens).2 =
      (docs.take k).map citation_of := h2
  rw [h1', h2', List.length_map, List.length_map]

/-- Claim C4: whenever the embed stage fails, or the retrieve stage
fails, or the chat stage fails, `generate_rag_answer` returns a
well-formed result whose answer is one of the two fixed (non-empty)
apology strings and whose sources list is empty.  The function is total
by construction, so no internal failure escapes to the caller. -/
theorem orchestrator_fallback {ε V : Type} (tok : String → String → Nat)
    (chat : String → List Message → Except ε String)
    (embed : String → Except ε V) (retrieve : V → Nat → Except ε (List Doc))
    (q : String) (imgs : Option (List String))
    (h : (∃ e, embed q = Except.error e) ∨
         (∃ v e, embed q = Except.ok v ∧ retrieve v 7 = Except.error e) ∨
         (∀ m ms, ∃ e, chat m ms = Except.error e)) :
    ((generate_rag_answer tok chat embed retrieve q imgs).answer = rag_error_answer ∨
     (generate_rag_answer tok chat embed retrieve q imgs).answer = generation_error_answer) ∧
    (generate_rag_answer tok chat embed retrieve q imgs).sources = [] ∧
    (generate_rag_answer tok chat embed retrieve q imgs).answer ≠ "" := by
  have fb1 : ({ answer := rag_error_answer, sources := [] } : RagResult).answer ≠ "" := by decide
  have fb2 : ({ answer := generation_error_answer, sources := [] } : RagResult).answer ≠ "" := by
    decide
  rcases h with ⟨e, he⟩ | ⟨v, e, hv, he⟩ | hchat
  · have hres : generate_rag_answer tok chat embed retrieve q imgs =
        { answer := rag_error_answer, sources := [] } := by
      simp only [generate_rag_answer, he]
    rw [hres]
    exact ⟨Or.inl rfl, rfl, fb1⟩
  · have hres : generate_rag_answer tok chat embed retrieve q imgs =
        { answer := rag_error_answer, sources := [] } := by
      simp only [generate_rag_answer, hv, he]
    rw [hres]
    exact ⟨Or.inl rfl, rfl, fb1⟩
  · cases hemb : embed q with
    | error e =>
      have hres : generate_rag_answer tok chat embed retrieve q imgs =
          { answer := rag_error_answer, sources := [] } := by
        simp only [generate_rag_answer, hemb]
      rw [hres]
      exact ⟨Or.inl rfl, rfl, fb1⟩
    | ok v =>
      cases hret : retrieve v 7 with
      | error e =>
        have hres : generate_rag_answer tok chat embed retrieve q imgs =
            { answer := rag_error_answer, sources := [] } := by
          simp only [generate_rag_answer, hemb, hret]
        rw [hres]
        exact ⟨Or.inl rfl, rfl, fb1⟩
      | ok docs =>
        obtain ⟨e, he⟩ := hchat (llm_model_to_use imgs)
          (build_messages q (join_with "\n" (packed_context tok q docs imgs).1) imgs)
        have hres : generate_rag_answer tok chat embed retrieve q imgs =
            { answer := generation_error_answer, sources := [] } := by
          simp only [generate_rag_answer, hemb, hret, generate_llm_response, he]
        rw [hres]
        exact ⟨Or.inr rfl, rfl, fb2⟩

/-- Claim C4, witness: an embedding failure produces the fallback result. -/
theorem orchestrator_fallback_witness :
    ((generate_rag_answer (fun _ _ => 1) (fun _ _ => (Except.ok "hi" : Except Unit String))
        (fun _ => (Except.error () : Except Unit Unit)) (fun _ _ => Except.ok ([] : List Doc))
        "q" none).answer = rag_error_answer ∨
     (generate_rag_answer (fun _ _ => 1) (fun _ _ => (Except.ok "hi" : Except Unit String))
        (fun _ => (Except.error () : Except Unit Unit)) (fun _ _ => Except.ok ([] : List Doc))
        "q" none).answer = generation_error_answer) ∧
    (generate_rag_answer (fun _ _ => 1) (fun _ _ => (Except.ok "hi" : Except Unit String))
        (fun _ => (Except.error () : Except Unit Unit)) (fun _ _ => Except.ok ([] : List Doc))
        "q" none).sources = [] ∧
    (generate_rag_answer (fun _ _ => 1) (fun _ _ => (Except.ok "hi" : Except Unit String))
        (fun _ => (Except.error () : Except Unit Unit)) (fun _ _ => Except.ok ([] : List Doc))
        "q" none).answer ≠ "" :=
  orchestrator_fallback _ _ _ _ _ _ (Or.inl ⟨(), rfl⟩)

/-- Claim C5, counterexample to the claim as stated: when the external
chat completion succeeds with an empty string, the success path returns
it stripped — an empty answer.  The code enforces non-emptiness only on
the failure paths. -/
theorem answer_nonempty_cex :
    (generate_llm_response (fun _ _ => 0) (fun _ _ => (Except.ok "" : Except Unit String))
      "" [] none).answer = "" := by rfl

/-- Claim C5, amended: the answer is non-empty on every failure path
(the fixed apology strings) and on the success path whenever the chat
response does not strip to the empty string; a whitespace-only model
response is the one reachable case that yields an empty answer. -/
theorem answer_nonempty {ε V : Type} (tok : String → String → Nat)
    (chat : String → List Message → Except ε String)
    (embed : String → Except ε V) (retrieve : V → Nat → Except ε (List Doc))
    (q : String) (docs : List Doc) (imgs : Option (List String))
    (hchat : ∀ m ms s, chat m ms = Except.ok s → py_strip s ≠ "") :
    (generate_llm_response tok chat q docs imgs).answer ≠ "" ∧
    (generate_rag_answer tok chat embed retrieve q imgs).answer ≠ "" := by
  have main : ∀ ds : List Doc, (generate_llm_response tok chat q ds imgs).answer ≠ "" := by
    intro ds
    cases hc : chat (llm_model_to_use imgs)
        (build_messages q (join_with "\n" (packed_context tok q ds imgs).1) imgs) with
    | ok s =>
      simp only [generate_llm_response, hc]
      exact hchat _ _ s hc
    | error e =>
      simp only [generate_llm_response, hc]
      decide
  refine ⟨main docs, ?_⟩
  cases hemb : embed q with
  | error e =>
    simp only [generate_rag_answer, hemb]
    decide
  | ok v =>
    cases hret : retrieve v 7 with
    | error e =>
      simp only [generate_rag_answer, hemb, hret]
      decide
    | ok ds =>
      simp only [generate_rag_answer, hemb, hret]
      exact main ds

/-- Claim C5, witness: with a chat stub answering a non-whitespace
string, both pipeline entry points return a non-empty answer. -/
theorem answer_nonempty_witness :
    (generate_llm_response (fun _ _ => 1) (fun _ _ => (Except.ok "x" : Except Unit String))
      "" [] none).answer ≠ "" ∧
    (generate_rag_answer (fun _ _ => 1) (fun _ _ => (Except.ok "x" : Except Unit String))
      (fun _ => (Except.ok () : Except Unit Unit)) (fun _ _ => Except.ok ([] : List Doc))
      "" none).answer ≠ "" :=
  answer_nonempty _ _ _ _ "" [] none (by
    intro m ms s h
    injection h with h
    subst h
    decide)

/-- Claim C6: on every path through `generate_llm_response` and
`generate_rag_answer` the sources field holds a list — either the
citations produced by the packer or the empty list — and its presence on
every return path is enforced by the result type. -/
theorem sources_always_list {ε V : Type} (tok : String → String → Nat)
    (chat : String → List Message → Except ε String)
    (embed : String → Except ε V) (retrieve : V → Nat → Except ε (List Doc))
    (q : String) (docs : List Doc) (imgs : Option (List String)) :
    ((generate_llm_response tok chat q docs imgs).sources = (packed_context tok q docs imgs).2 ∨
     (generate_llm_response tok chat q docs imgs).sources = []) ∧
    ((generate_rag_answer tok chat embed retrieve q imgs).sources = [] ∨
     ∃ ds, (generate_rag_answer tok chat embed retrieve q imgs).sources =
       (packed_context tok q ds imgs).2) := by
  have main : ∀ ds : List Doc,
      (generate_llm_response tok chat q ds imgs).sources = (packed_context tok q ds imgs).2 ∨
      (generate_llm_response tok chat q ds imgs).sources = [] := by
    intro ds
    cases hc : chat (llm_model_to_use imgs)
        (build_messages q (join_with "\n" (packed_context tok q ds imgs).1) imgs) with
    | ok s =>
      left
      simp only [generate_llm_response, hc]
    | error e =>
      right
      simp only [generate_llm_response, hc]
  refine ⟨main docs, ?_⟩
  cases hemb : embed q with
  | error e =>
    left
    simp only [generate_rag_answer, hemb]
  | ok v =>
    cases hret : retrieve v 7 with
    | error e =>
      left
      simp only [generate_rag_answer, hemb, hret]
    | ok ds =>
      have hres : generate_rag_answer tok chat embed retrieve q imgs =
          generate_llm_response tok chat q ds imgs := by
        simp only [generate_rag_answer, hemb, hret]
      rw [hres]
      rcases main ds with h | h
      · exact Or.inr ⟨ds, h⟩
      · exact Or.inl h

/-- Claim C7: the vision-capable model is selected exactly when the
image list is present and non-empty, and the text-only model is selected
exactly otherwise — the choice depends on nothing but the image list's
truthiness. -/
theorem model_selection (imgs : Option (List String)) :
    (llm_model_to_use imgs = LLM_MODEL_VISION ↔ ∃ l, imgs = some l ∧ l ≠ []) ∧
    (llm_model_to_use imgs = LLM_MODEL_TEXT_ONLY ↔ ¬ ∃ l, imgs = some l ∧ l ≠ []) := by
  have hne : LLM_MODEL_TEXT_ONLY ≠ LLM_MODEL_VISION := by decide
  have htr : truthy imgs = true ↔ ∃ l, imgs = some l ∧ l ≠ [] := by
    cases imgs with
    | none => simp [truthy]
    | some l =>
      cases l with
      | nil => simp [truthy]
      | cons a t => simp [truthy]
  by_cases ht : truthy imgs = true
  · have hm : llm_model_to_use imgs = LLM_MODEL_VISION := by
      simp [llm_model_to_use, ht]
    rw [hm]
    constructor
    · exact ⟨fun _ => htr.mp ht, fun _ => rfl⟩
    · constructor
      · intro hv
        exact absurd hv.symm hne
      · intro hn
        exact absurd (htr.mp ht) hn
  · have hm : llm_model_to_use imgs = LLM_MODEL_TEXT_ONLY := by
      simp [llm_model_to_use, ht]
    rw [hm]
    constructor
    · constructor
      · intro hv
        exact absurd hv hne
      · intro hex
        exact absurd (htr.mpr hex) ht
    · exact ⟨fun _ => fun hex => absurd (htr.mpr hex) ht, fun _ => rfl⟩

/-- Claim C8: with an empty passage list the packer yields an empty
block list and an empty citation list (no error is possible, the
embedding is total), and the generator is still invoked, on the messages
built from the bare query and the empty context string. -/
theorem empty_passages {ε : Type} (tok : String → String → Nat)
    (chat : String → List Message → Except ε String) (q : String)
    (imgs : Option (List String)) :
    packed_context tok q [] imgs = ([], []) ∧
    generate_llm_response tok chat q [] imgs =
      (match chat (llm_model_to_use imgs) (build_messages q "" imgs) with
       | Except.ok llm_answer => { answer := py_strip llm_answer, sources := [] }
       | Except.error _ => { answer := generation_error_answer, sources := [] }) := by
  exact ⟨rfl, rfl⟩

/-- Claim C9: both branches of the budget selection evaluate to
`MAX_TOKENS_FOR_LLM_VISION` (4096), whether or not images are present;
consequently packing depends on the image list only through the
tokenizer selected by the model name — two image lists on which the
tokenizer behaves identically give identical packings. -/
theorem constant_effective_budget :
    (∀ imgs, max_tokens_for_llm_effective imgs = MAX_TOKENS_FOR_LLM_VISION) ∧
    (∀ (tok : String → String → Nat) (q : String) (docs : List Doc)
        (imgs imgs' : Option (List String)),
      tok (llm_model_to_use imgs) = tok (llm_model_to_use imgs') →
      packed_context tok q docs imgs = packed_context tok q docs imgs') := by
  have hconst : ∀ imgs, max_tokens_for_llm_effective imgs = MAX_TOKENS_FOR_LLM_VISION := by
    intro imgs
    simp [max_tokens_for_llm_effective]
  refine ⟨hconst, ?_⟩
  intro tok q docs imgs imgs' h
  simp only [packed_context, pack, hconst, h]

/-- Claim C9, witness: the budget is the constant for the no-image case,
and a model-insensitive tokenizer packs identically with and without an
image list. -/
theorem constant_effective_budget_witness :
    max_tokens_for_llm_effective none = MAX_TOKENS_FOR_LLM_VISION ∧
    packed_context (fun _ _ => 1) "" [] none = packed_context (fun _ _ => 1) "" [] (some []) :=
  ⟨constant_effective_budget.1 none,
   constant_effective_budget.2 (fun _ _ => 1) "" [] none (some []) rfl⟩

/-- Claim C10, counterexample to the claim as stated: an image string
that starts with "data:image/" but contains no comma is not forwarded
at all — the split-and-index raises (modelled by `Except.error`), so the
handler fails instead of forwarding the submitted list. -/
theorem data_url_cex :
    ask_question_images (some ["data:image/png"]) = Except.error () := by rfl

/-- Claim C10, amended: for every submitted image list in which each
string starting with "data:image/" contains a comma, the forwarded list
maps each data-URL string to the substring after its first comma and
passes every other string through unchanged, preserving order; a
data-URL-prefixed string without a comma instead aborts the handler
(see the counterexample). -/
theorem data_url_forwarding (image_data : Option (List String))
    (h : ∀ img ∈ image_data.getD [], starts_with img "data:image/" = true →
      (after_first_comma img).isSome = true) :
    ask_question_images image_data =
      Except.ok ((image_data.getD []).map (fun img =>
        if starts_with img "data:image/" = true then (after_first_comma img).getD ""
        else img)) := by
  have main : ∀ l : List String,
      (∀ img ∈ l, starts_with img "data:image/" = true →
        (after_first_comma img).isSome = true) →
      process_images l = Except.ok (l.map (fun img =>
        if starts_with img "data:image/" = true then (after_first_comma img).getD ""
        else img)) := by
    intro l
    induction l with
    | nil => intro _; rfl
    | cons a t ih =>
      intro hl
      have ha := hl a (List.mem_cons_self a t)
      have ht := ih (fun img him => hl img (List.mem_cons_of_mem a him))
      by_cases hs : starts_with a "data:image/" = true
      · cases hc : after_first_comma a with
        | none =>
          exact absurd (ha hs) (by simp [hc])
        | some s =>
          simp only [process_images, process_image, hs, if_true, hc, ht, List.map_cons]
          simp [hs, hc]
      · simp only [process_images, process_image, hs, if_false, ht, List.map_cons]
        simp [hs]
  cases image_data with
  | none => rfl
  | some l =>
    cases l with
    | nil => rfl
    | cons a t =>
      have : truthy (some (a :: t)) = true := rfl
      simp only [ask_question_images, this, if_true, Option.getD]
      exact main (a :: t) (by simpa using h)

/-- Claim C10, witness: a well-formed data URL is forwarded as its
Base64 payload and a plain string passes through unchanged, in order. -/
theorem data_url_forwarding_witness :
    ask_question_images (some ["data:image/jpeg;base64,QUJD", "plain"]) =
      Except.ok (((some ["data:image/jpeg;base64,QUJD", "plain"] :
          Option (List String)).getD []).map (fun img =>
        if starts_with img "data:image/" = true then (after_first_comma img).getD ""
        else img)) :=
  data_url_forwarding (some ["data:image/jpeg;base64,QUJD", "plain"]) (by decide)
